import Mathlib

/-!
Verification of the policy-analysis orchestration core.

Shallow embedding of the repository's orchestration code:
- `services/claude_analyzer.py` (`_parse_analysis_json`, `analyze_policy`)
- `src/services/orchestrator.py` (`run_policy_analysis`, `_update_status`,
  `_calculate_duration`, `_send_callback`, the in-memory status store)

Python dictionaries holding decoded JSON are modelled by `JsonVal`;
machine floats that hold elapsed seconds are modelled by exact rationals;
the `json.loads` decoder of the standard library is kept abstract as a
parameter `loads` returning `Except` (an exception or a value), since the
code under verification only catches its exception and never inspects it.
Regular-expression searches of `_parse_analysis_json` are transcribed as
character-list scans with the exact leftmost-match semantics of the two
patterns appearing in the source.
-/

/-! ## Definitions: shallow embedding of the orchestration core -/

/-- A decoded JSON value (the Python objects produced by `json.loads`). -/
inductive JsonVal where
  | null : JsonVal
  | bool : Bool → JsonVal
  | num : ℚ → JsonVal
  | str : String → JsonVal
  | arr : List JsonVal → JsonVal
  | obj : List (String × JsonVal) → JsonVal

/-- Python truthiness of a decoded JSON value (`if analysis_data:`):
`None`, `False`, `0`, `""`, `[]` and `{}` are falsy. -/
def jsonTruthy : JsonVal → Bool
  | .null => false
  | .bool b => b
  | .num q => q != 0
  | .str s => !s.isEmpty
  | .arr xs => !xs.isEmpty
  | .obj fs => !fs.isEmpty

/-- ASCII whitespace matched by the regex class `\s` in the source patterns. -/
def isPyWS (c : Char) : Bool :=
  c = ' ' || c = '\t' || c = '\n' || c = '\r' || c = '\x0b' || c = '\x0c'

/-- Drop characters up to and including the first triple-backtick fence;
`none` when no fence occurs.  (Leftmost occurrence, as `re.search` finds.) -/
def dropToFence : List Char → Option (List Char)
  | '`' :: '`' :: '`' :: rest => some rest
  | _ :: rest => dropToFence rest
  | [] => none

/-- The characters strictly before the first triple-backtick fence;
`none` when no fence occurs. -/
def takeToFence : List Char → Option (List Char)
  | '`' :: '`' :: '`' :: _ => some []
  | c :: rest => (takeToFence rest).map (c :: ·)
  | [] => none

/-- Strip trailing regex whitespace (the greedy `\s*` before the closing
fence of the pattern). -/
def dropTrailingWS (cs : List Char) : List Char :=
  ((cs.reverse).dropWhile isPyWS).reverse

/-- Strip a literal `json` tag if it immediately follows the opening fence
(the `(?:json)?` group of the pattern, matched greedily). -/
def dropJsonTag : List Char → List Char
  | 'j' :: 's' :: 'o' :: 'n' :: rest => rest
  | cs => cs

/-- The capture group of `re.search(r'```(?:json)?\s*([\s\S]*?)\s*```', text)`:
content of the first fenced block — after the first opening fence, an
optional `json` tag and leading whitespace are consumed, and the lazy group
runs to the first closing fence with trailing whitespace stripped.
`none` when the pattern does not match. -/
def fencedInner (cs : List Char) : Option (List Char) :=
  match dropToFence cs with
  | none => none
  | some rest => (takeToFence ((dropJsonTag rest).dropWhile isPyWS)).map dropTrailingWS

/-- The match of `re.search(r'\{[\s\S]*\}', text)`: the greedy span from the
first `{` to the last `}`; `none` when no such span exists. -/
def braceSpan (cs : List Char) : Option (List Char) :=
  let fromBrace := cs.dropWhile (· ≠ '{')
  let upToLast := ((fromBrace.reverse).dropWhile (· ≠ '}')).reverse
  match upToLast with
  | [] => none
  | s => some s

/-- Function `_parse_analysis_json` (claude_analyzer.py lines 163–194): try the whole
text, then the inner content of the first fenced block, then the outer-brace
span; each `json.loads` exception is caught and the next strategy is tried;
`None` when all fail. -/
def parse_analysis_json (loads : List Char → Except String JsonVal)
    (text : List Char) : Option JsonVal :=
  match loads text with
  | .ok v => some v
  | .error _ =>
    match fencedInner text with
    | some inner =>
      match loads inner with
      | .ok v => some v
      | .error _ =>
        match braceSpan text with
        | some s => (loads s).toOption
        | none => none
    | none =>
      match braceSpan text with
      | some s => (loads s).toOption
      | none => none

/-- First successful strategy of an ordered cascade (spec §4.3: "ordered
list of pure functions `text -> optional(object)`, tried in sequence"). -/
def firstSome : List (Option JsonVal) → Option JsonVal
  | [] => none
  | some v :: _ => some v
  | none :: rest => firstSome rest

/-- Spec-side description of the parser (§4.3): the three strategies in
strict precedence order, first success wins, `none` when all fail. -/
def parserCascade (loads : List Char → Except String JsonVal)
    (text : List Char) : Option JsonVal :=
  firstSome
    [ (loads text).toOption,
      (fencedInner text).bind (fun inner => (loads inner).toOption),
      (braceSpan text).bind (fun s => (loads s).toOption) ]

/-- Settings from config.py used by the orchestration core (environment
defaults shown in the source). -/
structure Settings where
  ANTHROPIC_API_KEY : String := ""
  CALLBACK_TIMEOUT : Int := 30
  REPORTS_DIR : String := "reports"
  CLAUDE_MODEL : String := "claude-sonnet-4-20250514"

/-- The `result` summary dict built at orchestrator.py lines 116–128.
Timestamps are modelled as rational seconds. -/
structure ResultSummary where
  analysis_id : String
  policy_id : Option String
  client_id : Option String
  client_name : String
  status : String
  overall_score : Option JsonVal
  recommendation : Option JsonVal
  report_path : Option String
  analysis_data : Option JsonVal
  completed_at : ℚ
  processing_time_seconds : ℚ

/-- One entry of `analysis_status_store` (orchestrator.py lines 42–50). -/
structure Entry where
  analysis_id : String
  status : String
  progress : String
  started_at : Option ℚ
  completed_at : Option ℚ
  error : Option String
  result : Option ResultSummary

/-- The in-memory status store: a keyed map from job id to entry. -/
def Store : Type := String → Option Entry

/-- The empty store. -/
def emptyStore : Store := fun _ => none

/-- Python dict assignment `store[id] = entry`: writes the entry under the
id, silently replacing any entry already present. -/
def storeAssign (s : Store) (id : String) (e : Entry) : Store :=
  fun k => if k = id then some e else s k

/-- The initial entry written at job creation (orchestrator.py lines 42–50):
status `started`, no completion, no error, no result. -/
def initEntry (analysis_id : String) (t_start : ℚ) : Entry :=
  { analysis_id := analysis_id, status := "started", progress := "Initializing...",
    started_at := some t_start, completed_at := none, error := none, result := none }

/-- The merge performed by `_update_status` on a present entry: only
`status` and `progress` change. -/
def stageUpdate (e : Entry) (status progress : String) : Entry :=
  { e with status := status, progress := progress }

/-- The merge performed by the completed update (orchestrator.py lines
141–146): status `completed`, completion timestamp taken from the result
summary, result attached. -/
def completedUpdate (e : Entry) (result : ResultSummary) : Entry :=
  { e with
    status := "completed", progress := "Analysis complete",
    completed_at := some result.completed_at, result := some result }

/-- The merge performed by the failed update (orchestrator.py lines
160–165): status `failed`, error message and completion timestamp set;
`result` is left as it was. -/
def failedUpdate (e : Entry) (msg : String) (t : ℚ) : Entry :=
  { e with
    status := "failed", progress := "Analysis failed",
    error := some msg, completed_at := some t }

/-- Function `_update_status` (orchestrator.py lines 180–187): merge status and
progress when the id is present; otherwise only log — the store is
unchanged and nothing is raised. -/
def update_status (s : Store) (analysis_id status progress : String) : Store :=
  match s analysis_id with
  | some e => storeAssign s analysis_id (stageUpdate e status progress)
  | none => s

/-- The completed update as performed at orchestrator.py line 141 by
`analysis_status_store[analysis_id].update({...})`: direct subscript
access, raising `KeyError` when the id is absent. -/
def terminalCompletedUpdate (s : Store) (id : String) (result : ResultSummary) :
    Except String Store :=
  match s id with
  | none => .error ("KeyError: " ++ id)
  | some e => .ok (storeAssign s id (completedUpdate e result))

/-- The failed update as performed at orchestrator.py line 160 by
`analysis_status_store[analysis_id].update({...})`: direct subscript
access, raising `KeyError` when the id is absent. -/
def terminalFailedUpdate (s : Store) (id msg : String) (t : ℚ) :
    Except String Store :=
  match s id with
  | none => .error ("KeyError: " ++ id)
  | some e => .ok (storeAssign s id (failedUpdate e msg t))

/-- Round-half-to-even to an integer, the rounding used by Python `round`. -/
def roundHalfEven (q : ℚ) : ℤ :=
  if Int.fract q < 1 / 2 then ⌊q⌋
  else if 1 / 2 < Int.fract q then ⌊q⌋ + 1
  else if ⌊q⌋ % 2 = 0 then ⌊q⌋ else ⌊q⌋ + 1

/-- Python `round(x, 2)`: rounding to hundredths of a second. -/
def round2 (q : ℚ) : ℚ := (roundHalfEven (100 * q) : ℚ) / 100

/-- Function `_calculate_duration` (orchestrator.py lines 190–201): 0 when the id is
absent or the entry has no `started_at`; otherwise the elapsed time from
`started_at` to now, rounded to hundredths. -/
def calculate_duration (s : Store) (analysis_id : String) (now : ℚ) : ℚ :=
  match s analysis_id with
  | none => 0
  | some e =>
    match e.started_at with
    | none => 0
    | some started => round2 (now - started)

/-- A concrete store holding one freshly created job entry, used to
instantiate the store theorems. -/
def sampleStore : Store := storeAssign emptyStore "job-1" (initEntry "job-1" 0)

/-- A concrete result summary, used to instantiate the store theorems. -/
def sampleResult : ResultSummary :=
  { analysis_id := "job-1", policy_id := none, client_id := none,
    client_name := "Acme Corp", status := "completed", overall_score := none,
    recommendation := none, report_path := none, analysis_data := none,
    completed_at := 5, processing_time_seconds := 5 }

/-- The two exception classes caught in `analyze_policy`:
`anthropic.APIError` and any other exception. -/
inductive ApiFailure where
  | apiError (msg : String)
  | exn (msg : String)

/-- The `AnalysisResult` dataclass (claude_analyzer.py lines 19–26). -/
structure AnalysisResult where
  success : Bool
  analysis_data : Option JsonVal := none
  raw_response : Option String := none
  tokens_used : Option Nat := none
  error : Option String := none

/-- Python dict item assignment `d[k] = v`: replace the first binding of
`k` in place, or append a new binding. -/
def setKey : List (String × JsonVal) → String → JsonVal → List (String × JsonVal)
  | [], k, v => [(k, v)]
  | (k', v') :: rest, k, v =>
    if k' = k then (k, v) :: rest else (k', v') :: setKey rest k v

/-- The argument bundle of `analyzer.analyze_policy`. -/
structure AnalyzeArgs where
  policy_text : String
  client_name : String
  client_industry : String
  policy_type : String
  is_renewal : Bool

/-- The `_metadata` dict attached to parsed analysis data
(claude_analyzer.py lines 123–130). -/
def metadataObj (settings : Settings) (args : AnalyzeArgs) (tokens_used : Nat) : JsonVal :=
  .obj [("client_name", .str args.client_name),
        ("client_industry", .str args.client_industry),
        ("policy_type", .str args.policy_type),
        ("is_renewal", .bool args.is_renewal),
        ("model_used", .str settings.CLAUDE_MODEL),
        ("tokens_used", .num tokens_used)]

/-- Python `d.get(k, default)` on a value expected to be a dict: raises
`AttributeError` on a non-dict receiver. -/
def pyDictGetD (v : JsonVal) (k : String) (d : JsonVal) : Except String JsonVal :=
  match v with
  | .obj fs => .ok ((fs.lookup k).getD d)
  | _ => .error "AttributeError: get on non-dict"

/-- Python `d.get(k)` (default `None`) on a value expected to be a dict. -/
def pyDictGet (v : JsonVal) (k : String) : Except String (Option JsonVal) :=
  match v with
  | .obj fs => .ok (fs.lookup k)
  | _ => .error "AttributeError: get on non-dict"

/-- Python `o.get(k, default)` where `o` may be `None` (raises
`AttributeError` on `None`). -/
def pyOptDictGetD (o : Option JsonVal) (k : String) (d : JsonVal) :
    Except String JsonVal :=
  match o with
  | none => .error "AttributeError: get on None"
  | some v => pyDictGetD v k d

/-- Python `f"{opt}"` for an `Optional[str]`: `None` prints as `"None"`. -/
def pyStr (o : Option String) : String := o.getD "None"

/-- Method `analyze_policy` (claude_analyzer.py lines 42–161) after the Claude
API call is abstracted as `claude` (raw response text and total token
count, or a raised exception).  Without an API key it fails early; an
exception from the call maps to a failure result; otherwise the raw text
goes to `_parse_analysis_json`: a truthy parsed dict is enriched with
`_metadata` (the success log line then reads nested fields with `.get`,
raising if `executive_summary`/`key_metrics` are non-dicts); a truthy
non-dict parse raises `TypeError` on item assignment, caught as a generic
failure; a falsy or failed parse yields a degraded success carrying
`{"raw_analysis": raw_text}`. -/
def analyze_policy (loads : List Char → Except String JsonVal)
    (settings : Settings) (claude : Except ApiFailure (String × Nat))
    (args : AnalyzeArgs) : AnalysisResult :=
  if settings.ANTHROPIC_API_KEY = "" then
    { success := false, error := some "Anthropic API key not configured" }
  else
    match claude with
    | .error (.apiError m) => { success := false, error := some ("API error: " ++ m) }
    | .error (.exn m) => { success := false, error := some m }
    | .ok (raw_text, tokens_used) =>
      match parse_analysis_json loads raw_text.data with
      | some analysis_data =>
        if jsonTruthy analysis_data then
          match analysis_data with
          | .obj fs =>
            let enriched : JsonVal :=
              .obj (setKey fs "_metadata" (metadataObj settings args tokens_used))
            -- success log line: nested `.get` chain on the enriched dict
            match (do
                let es ← pyDictGetD enriched "executive_summary" (.obj [])
                let km ← pyDictGetD es "key_metrics" (.obj [])
                let _ ← pyDictGetD km "overall_maturity_score" (.str "N/A")
                pure () : Except String Unit) with
            | .error m => { success := false, error := some m }
            | .ok _ =>
              { success := true, analysis_data := some enriched,
                raw_response := some raw_text, tokens_used := some tokens_used }
          | _ =>
            { success := false,
              error := some "TypeError: item assignment on non-dict analysis data" }
        else
          { success := true,
            analysis_data := some (.obj [("raw_analysis", .str raw_text)]),
            raw_response := some raw_text, tokens_used := some tokens_used }
      | none =>
        { success := true,
          analysis_data := some (.obj [("raw_analysis", .str raw_text)]),
          raw_response := some raw_text, tokens_used := some tokens_used }

/-- The terminal callback payload: the success variant carries the full
result summary, the failure variant the error fields built at
orchestrator.py lines 170–177. -/
inductive CallbackPayload where
  | success (r : ResultSummary)
  | failure (analysis_id : String) (policy_id client_id : Option String)
      (error_message : String) (completed_at : ℚ)

/-- One HTTP POST issued by `_send_callback`: target URL, JSON-serialized
payload, content-type header, and the configured timeout bound. -/
structure CallbackRequest where
  url : String
  payload : CallbackPayload
  content_type : String
  timeout : Int

/-- The collaborator's HTTP response. -/
structure HttpResponse where
  status : Nat

/-- The judged outcome of one delivery attempt. -/
inductive CallbackOutcome where
  | delivered
  | httpError (status : Nat)
  | ioError (msg : String)

/-- Function `_send_callback` (orchestrator.py lines 204–222): builds one POST
request with a JSON content-type header bounded by the configured timeout,
issues it once through `post`, logs success only for HTTP 200, logs a
warning for any other code, and catches any I/O fault; it returns the
outcome and the list of requests issued (always exactly one), and never
raises. -/
def send_callback (settings : Settings)
    (post : CallbackRequest → Except String HttpResponse)
    (callback_url : String) (result : CallbackPayload) :
    CallbackOutcome × List CallbackRequest :=
  let req : CallbackRequest :=
    { url := callback_url, payload := result,
      content_type := "application/json", timeout := settings.CALLBACK_TIMEOUT }
  match post req with
  | .ok resp =>
    (if resp.status = 200 then .delivered else .httpError resp.status, [req])
  | .error e => (.ioError e, [req])

/-- A delivery performed during a run: target, payload, requests issued and
judged outcome. -/
structure CallbackRecord where
  url : String
  payload : CallbackPayload
  requests : List CallbackRequest
  outcome : CallbackOutcome

/-- The `PDFExtractor` result (the Fetcher/Extractor collaborator interface). -/
structure Extraction where
  success : Bool
  text : String := ""
  page_count : Nat := 0
  error : Option String := none

/-- The `ReportGenerator` result (the Report Renderer collaborator interface). -/
structure ReportResult where
  success : Bool
  report_path : Option String := none
  error : Option String := none

/-- The webhook/upload payload fields read by `run_policy_analysis`
(`payload.get(...)` on each key; a missing key reads as `None`). -/
structure Payload where
  client_name : Option String := none
  client_industry : Option String := none
  policy_type : Option String := none
  renewal : Option Bool := none
  callback_url : Option String := none
  local_file_path : Option String := none
  file_url : Option String := none
  policy_id : Option String := none
  client_id : Option String := none

/-- Python truthiness of an optional string (`if local_path:` etc.):
`None` and `""` are falsy. -/
def optTruthy (o : Option String) : Option String :=
  match o with
  | some s => if s.isEmpty then none else some s
  | none => none

/-- One invocation of an external collaborator during a run. -/
inductive CollabCall where
  | extractFile (path : String)
  | extractUrl (url : String)
  | analyze (args : AnalyzeArgs)
  | render (analysis_data : Option JsonVal) (output_dir : String)
  | persist (policy_id analysis_id : String)

/-- The external collaborators behind their narrow interfaces, plus the
HTTP layer used by the callback dispatcher. -/
structure Deps where
  extract_from_file : String → Extraction
  extract_from_url : String → Extraction
  analyze_policy : AnalyzeArgs → AnalysisResult
  generate_report : Option JsonVal → String → ReportResult
  store_analysis_result : String → String → ResultSummary → Bool
  post : CallbackRequest → Except String HttpResponse

/-- The terminal outcome of a run. -/
inductive Outcome where
  | completed (result : ResultSummary)
  | failed (msg : String)

/-- The observable effect of one run: the final status store, the
collaborator invocations, the callback deliveries, and the outcome. -/
structure RunResult where
  store : Store
  calls : List CollabCall
  callbacks : List CallbackRecord
  outcome : Outcome

/-- The analyzer argument bundle built at orchestrator.py lines 83–89 from
payload metadata (lines 54–57) and the extracted text. -/
def mkAnalyzeArgs (payload : Payload) (text : String) : AnalyzeArgs :=
  { policy_text := text,
    client_name := payload.client_name.getD "Unknown Client",
    client_industry := payload.client_industry.getD "Other/General",
    policy_type := payload.policy_type.getD "cyber",
    is_renewal := payload.renewal.getD false }

/-- The summary fields read out of the analysis data at orchestrator.py
lines 113–114 and 122–123: `executive_summary` (default `{}`),
`key_metrics` (default `{}`), then `overall_maturity_score` and
`recommendation`; any `.get` on a non-dict raises. -/
def buildSummaryFields (analysis_data : Option JsonVal) :
    Except String (Option JsonVal × Option JsonVal) := do
  let exec_summary ← pyOptDictGetD analysis_data "executive_summary" (.obj [])
  let key_metrics ← pyDictGetD exec_summary "key_metrics" (.obj [])
  let overall_score ← pyDictGet key_metrics "overall_maturity_score"
  let recommendation ← pyDictGet exec_summary "recommendation"
  pure (overall_score, recommendation)

/-- The tail of the success path (orchestrator.py lines 130–154): the
fire-and-forget persistence step (when the payload carries a truthy
`policy_id`), the completed status update (direct subscript access), and
the success callback (when a callback target is configured). -/
def finishRun (deps : Deps) (settings : Settings) (store3 : Store)
    (analysis_id : String) (payload : Payload) (result : ResultSummary)
    (calls3 : List CollabCall) :
    Except (String × Store × List CollabCall)
      (Store × List CollabCall × List CallbackRecord × ResultSummary) :=
  -- STEP 5: Store results (fire-and-forget, return value unused)
  let calls4 :=
    match optTruthy payload.policy_id with
    | some pid => calls3 ++ [CollabCall.persist pid analysis_id]
    | none => calls3
  -- Update status to complete (direct subscript access)
  match terminalCompletedUpdate store3 analysis_id result with
  | .error m => .error (m, store3, calls4)
  | .ok store4 =>
    -- STEP 4: Send callback (if configured)
    let cbs :=
      match optTruthy payload.callback_url with
      | some url =>
        let sent := send_callback settings deps.post url (.success result)
        [{ url := url, payload := .success result,
           requests := sent.2, outcome := sent.1 }]
      | none => []
    .ok (store4, calls4, cbs, result)

/-- The stages from the extraction-success check to the completed status
update and success callback (orchestrator.py lines 75–154), given the
extraction result and the collaborator calls made so far.  An `.error`
carries the raised message together with the store and calls at the raise
point (the enclosing `try` block's view). -/
def afterExtraction (deps : Deps) (settings : Settings) (store1 : Store)
    (analysis_id : String) (payload : Payload) (t_end : ℚ)
    (extraction : Extraction) (calls1 : List CollabCall) :
    Except (String × Store × List CollabCall)
      (Store × List CollabCall × List CallbackRecord × ResultSummary) :=
  if extraction.success = false then
    .error ("PDF extraction failed: " ++ pyStr extraction.error, store1, calls1)
  else
    -- STEP 2: Analyze with Claude
    let store2 := update_status store1 analysis_id "analyzing" "Analyzing policy with Claude..."
    let args := mkAnalyzeArgs payload extraction.text
    let analysis_result := deps.analyze_policy args
    let calls2 := calls1 ++ [.analyze args]
    if analysis_result.success = false then
      .error ("Claude analysis failed: " ++ pyStr analysis_result.error, store2, calls2)
    else
      let analysis_data := analysis_result.analysis_data
      -- STEP 3: Generate PDF report (non-fatal on failure)
      let store3 := update_status store2 analysis_id "generating" "Generating PDF report..."
      let report_result := deps.generate_report analysis_data settings.REPORTS_DIR
      let calls3 := calls2 ++ [.render analysis_data settings.REPORTS_DIR]
      let report_path := if report_result.success then report_result.report_path else none
      -- Build result summary
      match buildSummaryFields analysis_data with
      | .error m => .error (m, store3, calls3)
      | .ok (overall_score, recommendation) =>
        let result : ResultSummary :=
          { analysis_id := analysis_id, policy_id := payload.policy_id,
            client_id := payload.client_id,
            client_name := payload.client_name.getD "Unknown Client",
            status := "completed", overall_score := overall_score,
            recommendation := recommendation, report_path := report_path,
            analysis_data := analysis_data, completed_at := t_end,
            processing_time_seconds := calculate_duration store3 analysis_id t_end }
        finishRun deps settings store3 analysis_id payload result calls3

/-- The body of the `try` block of `run_policy_analysis` (orchestrator.py
lines 52–154): resolve the input source (local path takes the branch when
truthy, else the remote URL, else raise the invalid-request error), then
run the remaining stages. -/
def pipelineBody (deps : Deps) (settings : Settings) (store0 : Store)
    (analysis_id : String) (payload : Payload) (t_end : ℚ) :
    Except (String × Store × List CollabCall)
      (Store × List CollabCall × List CallbackRecord × ResultSummary) :=
  -- STEP 1: Get the PDF content
  let store1 := update_status store0 analysis_id "extracting" "Extracting text from PDF..."
  match optTruthy payload.local_file_path with
  | some path =>
    afterExtraction deps settings store1 analysis_id payload t_end
      (deps.extract_from_file path) [CollabCall.extractFile path]
  | none =>
    match optTruthy payload.file_url with
    | some url =>
      afterExtraction deps settings store1 analysis_id payload t_end
        (deps.extract_from_url url) [CollabCall.extractUrl url]
    | none => .error ("No file path or URL provided", store1, [])

/-- Function `run_policy_analysis` (orchestrator.py lines 25–177): create the status
entry in state `started`, run the pipeline body, and on any raised error
perform the failed update and fire the failure callback when a callback
target is configured.  The overall `.error` case is a `KeyError` escaping
the failure handler itself (the terminal updates use direct subscript
access). -/
def run_policy_analysis (deps : Deps) (settings : Settings) (store_in : Store)
    (analysis_id : String) (payload : Payload) (t_start t_end : ℚ) :
    Except String RunResult :=
  let store0 := storeAssign store_in analysis_id (initEntry analysis_id t_start)
  match pipelineBody deps settings store0 analysis_id payload t_end with
  | .ok (store', calls, cbs, result) =>
    .ok { store := store', calls := calls, callbacks := cbs,
          outcome := .completed result }
  | .error (msg, storeF, calls) =>
    match terminalFailedUpdate storeF analysis_id msg t_end with
    | .error ke => .error ke
    | .ok store' =>
      let cbs :=
        match optTruthy payload.callback_url with
        | some url =>
          let p := CallbackPayload.failure analysis_id payload.policy_id
            payload.client_id msg t_end
          let sent := send_callback settings deps.post url p
          [{ url := url, payload := p, requests := sent.2, outcome := sent.1 }]
        | none => []
      .ok { store := store', calls := calls, callbacks := cbs,
            outcome := .failed msg }

/-- Concrete collaborators for instantiating the pipeline theorems: every
stage succeeds. -/
def sampleDeps : Deps :=
  { extract_from_file := fun _ => { success := true, text := "policy text", page_count := 1 },
    extract_from_url := fun _ => { success := true, text := "policy text", page_count := 1 },
    analyze_policy := fun _ =>
      { success := true, analysis_data := some (.obj [("raw_analysis", .str "ok")]),
        raw_response := some "ok", tokens_used := some 10 },
    generate_report := fun _ _ => { success := true, report_path := some "reports/report.pdf" },
    store_analysis_result := fun _ _ _ => true,
    post := fun _ => .ok { status := 200 } }

/-- A request carrying BOTH source reference variants. -/
def bothSourcesPayload : Payload :=
  { client_name := some "Acme Corp",
    local_file_path := some "temp/upload.pdf",
    file_url := some "https://files.example/policy.pdf" }

/-- The §3 status-entry invariant: `completed_at` is set iff the status is
terminal, and `result` is non-null iff the status is `completed`. -/
def EntryInv (e : Entry) : Prop :=
  (e.completed_at ≠ none ↔ (e.status = "completed" ∨ e.status = "failed")) ∧
  (e.result ≠ none ↔ e.status = "completed")

/-- A `json.loads` stand-in that always raises (used to instantiate the
degraded-parse scenario on raw text none of the strategies can decode). -/
def alwaysFailLoads : List Char → Except String JsonVal :=
  fun _ => .error "Expecting value"

/-- Settings with an API key configured. -/
def keyedSettings : Settings := { ANTHROPIC_API_KEY := "sk-test" }

/-- Collaborators whose Analyze stage is the real `analyze_policy` over a
successful Claude call returning undecodable prose. -/
def degradedDeps : Deps :=
  { sampleDeps with
    analyze_policy := fun args =>
      analyze_policy alwaysFailLoads keyedSettings
        (.ok ("unparseable prose", 10)) args }

/-- Collaborators whose Render stage fails. -/
def renderFailDeps : Deps :=
  { sampleDeps with
    generate_report := fun _ _ =>
      { success := false, error := some "renderer down" } }

/-! ## Theorems -/

/-- C2: For every text input and every decoder, the response parser applies
exactly the three strategies — whole text, inner content of the first
triple-backtick fenced block (optionally tagged `json`), greedy span from
the first `{` to the last `}` — in strict precedence order, returns the
result of the first that succeeds, and returns `none` when all three fail;
it is a total function of its input (each decoding exception is caught, so
it never raises). -/
theorem parse_analysis_json_is_cascade
    (loads : List Char → Except String JsonVal) (text : List Char) :
    parse_analysis_json loads text = parserCascade loads text := by
  unfold parse_analysis_json parserCascade
  cases h1 : loads text with
  | ok v => simp [Except.toOption, firstSome]
  | error e =>
    cases h2 : fencedInner text with
    | none =>
      cases h3 : braceSpan text with
      | none => simp [Except.toOption, firstSome]
      | some s => cases h4 : loads s <;> simp [Except.toOption, firstSome, h4]
    | some inner =>
      cases h5 : loads inner with
      | ok v => simp [Except.toOption, firstSome, h5]
      | error e2 =>
        cases h3 : braceSpan text with
        | none => simp [Except.toOption, firstSome, h5]
        | some s => cases h4 : loads s <;> simp [Except.toOption, firstSome, h5, h4]

theorem roundHalfEven_nonneg {q : ℚ} (h : 0 ≤ q) : 0 ≤ roundHalfEven q := by
  have hf : (0 : ℤ) ≤ ⌊q⌋ := Int.floor_nonneg.mpr h
  unfold roundHalfEven
  split
  · exact hf
  · split
    · omega
    · split
      · exact hf
      · omega

theorem round2_nonneg {q : ℚ} (h : 0 ≤ q) : 0 ≤ round2 q := by
  unfold round2
  have h1 : (0 : ℤ) ≤ roundHalfEven (100 * q) :=
    roundHalfEven_nonneg (by positivity)
  have h2 : (0 : ℚ) ≤ (roundHalfEven (100 * q) : ℚ) := by exact_mod_cast h1
  positivity

/-- C10: For a job id present in the store, `_update_status` rewrites only
the `status` and `progress` fields of that entry — `analysis_id`,
`started_at`, `completed_at`, `error` and `result` are unchanged — and
every entry under any other id is unchanged. -/
theorem update_status_frame (s : Store) (id status progress : String) (e : Entry)
    (h : s id = some e) :
    (∃ e', (update_status s id status progress) id = some e' ∧
      e'.status = status ∧ e'.progress = progress ∧
      e'.analysis_id = e.analysis_id ∧ e'.started_at = e.started_at ∧
      e'.completed_at = e.completed_at ∧ e'.error = e.error ∧
      e'.result = e.result) ∧
    (∀ k, k ≠ id → (update_status s id status progress) k = s k) := by
  constructor
  · exact ⟨stageUpdate e status progress, by simp [update_status, h, storeAssign],
      rfl, rfl, rfl, rfl, rfl, rfl, rfl⟩
  · intro k hk
    simp [update_status, h, storeAssign, hk]

/-- Witness for C10 at a concrete store: the stage update touches only
status and progress of `job-1` and leaves the absent key `job-2` absent. -/
theorem update_status_frame_witness :
    (∃ e', (update_status sampleStore "job-1" "analyzing" "Analyzing policy with Claude...") "job-1" = some e' ∧
      e'.status = "analyzing" ∧ e'.progress = "Analyzing policy with Claude..." ∧
      e'.analysis_id = (initEntry "job-1" 0).analysis_id ∧
      e'.started_at = (initEntry "job-1" 0).started_at ∧
      e'.completed_at = (initEntry "job-1" 0).completed_at ∧
      e'.error = (initEntry "job-1" 0).error ∧
      e'.result = (initEntry "job-1" 0).result) ∧
    (update_status sampleStore "job-1" "analyzing" "Analyzing policy with Claude...") "job-2" = sampleStore "job-2" := by
  have h := update_status_frame sampleStore "job-1" "analyzing"
    "Analyzing policy with Claude..." (initEntry "job-1" 0)
    (by simp [sampleStore, storeAssign])
  exact ⟨h.1, h.2 "job-2" (by simp)⟩

/-- C5 counterexample: the store's create operation is a plain dict
assignment; creating again under an id already present does not fail — it
silently replaces the existing entry (here, the entry started at time 0 is
replaced by one started at time 1). -/
theorem storeCreate_overwrites_counterexample :
    (storeAssign (storeAssign emptyStore "job-1" (initEntry "job-1" 0))
        "job-1" (initEntry "job-1" 1)) "job-1" = some (initEntry "job-1" 1) ∧
    initEntry "job-1" 1 ≠ initEntry "job-1" 0 := by
  constructor
  · simp [storeAssign]
  · intro h
    have h' := congrArg Entry.started_at h
    simp [initEntry] at h'

/-- C5 amended: creating an entry writes it under the id, silently
replacing any entry already present (no failure path exists), and leaves
every other key unchanged. -/
theorem storeCreate_replaces (s : Store) (id : String) (e : Entry) :
    (storeAssign s id e) id = some e ∧
    (∀ k, k ≠ id → (storeAssign s id e) k = s k) := by
  constructor
  · simp [storeAssign]
  · intro k hk; simp [storeAssign, hk]

/-- Witness for the amended C5 at a concrete store. -/
theorem storeCreate_replaces_witness :
    (storeAssign sampleStore "job-1" (initEntry "job-1" 1)) "job-1" = some (initEntry "job-1" 1) ∧
    (storeAssign sampleStore "job-1" (initEntry "job-1" 1)) "job-2" = sampleStore "job-2" := by
  have h := storeCreate_replaces sampleStore "job-1" (initEntry "job-1" 1)
  exact ⟨h.1, h.2 "job-2" (by simp)⟩

/-- C6 counterexample: for an id absent from the store, the terminal failed
update (direct subscript access at orchestrator.py line 160) is not a
no-op-with-warning — it raises a `KeyError`. -/
theorem terminal_update_absent_raises_counterexample :
    terminalFailedUpdate emptyStore "job-9" "boom" 3 =
      .error ("KeyError: " ++ "job-9") := rfl

/-- C6 amended: for a job id absent from the status store, the intermediate
stage updates performed through `_update_status` are non-fatal no-ops that
neither raise nor create an entry, while the terminal completed and failed
updates access the entry by direct subscript and raise a `KeyError`. -/
theorem status_update_absent_id (s : Store) (id st p msg : String)
    (res : ResultSummary) (t : ℚ) (h : s id = none) :
    update_status s id st p = s ∧
    terminalCompletedUpdate s id res = .error ("KeyError: " ++ id) ∧
    terminalFailedUpdate s id msg t = .error ("KeyError: " ++ id) := by
  refine ⟨?_, ?_, ?_⟩ <;>
    simp [update_status, terminalCompletedUpdate, terminalFailedUpdate, h]

/-- Witness for the amended C6 at the empty store. -/
theorem status_update_absent_id_witness :
    update_status emptyStore "job-9" "extracting" "Extracting text from PDF..." = emptyStore ∧
    terminalCompletedUpdate emptyStore "job-9" sampleResult = .error ("KeyError: " ++ "job-9") ∧
    terminalFailedUpdate emptyStore "job-9" "boom" 3 = .error ("KeyError: " ++ "job-9") :=
  status_update_absent_id emptyStore "job-9" "extracting"
    "Extracting text from PDF..." "boom" sampleResult 3 rfl

/-- C9: duration accounting — when the id is absent or the entry lacks
`started_at`, the computed duration is 0; when the entry holds
`started_at = t`, the duration equals the elapsed time from `t` to the
moment of completion rounded to hundredths of a second, and it is
non-negative whenever completion does not precede the start. -/
theorem calculate_duration_correct (s : Store) (id : String) (now : ℚ) :
    (s id = none → calculate_duration s id now = 0) ∧
    (∀ e, s id = some e → e.started_at = none → calculate_duration s id now = 0) ∧
    (∀ e t, s id = some e → e.started_at = some t →
      calculate_duration s id now = round2 (now - t) ∧
      (t ≤ now → 0 ≤ calculate_duration s id now)) := by
  refine ⟨?_, ?_, ?_⟩
  · intro h; simp [calculate_duration, h]
  · intro e he hs; simp [calculate_duration, he, hs]
  · intro e t he hs
    have hd : calculate_duration s id now = round2 (now - t) := by
      simp [calculate_duration, he, hs]
    exact ⟨hd, fun hle => by rw [hd]; exact round2_nonneg (by linarith)⟩

/-- Witness for C9 at a concrete store: a job started at 0 completing at 5
reports `round2 (5 - 0)` elapsed seconds, which is non-negative. -/
theorem calculate_duration_correct_witness :
    calculate_duration sampleStore "job-1" 5 = round2 (5 - 0) ∧
    0 ≤ calculate_duration sampleStore "job-1" 5 := by
  have h := (calculate_duration_correct sampleStore "job-1" 5).2.2
    (initEntry "job-1" 0) 0 (by simp [sampleStore, storeAssign]) rfl
  exact ⟨h.1, h.2 (by norm_num)⟩

/-- Looking up the id just written by a dict assignment. -/
theorem storeAssign_self (s : Store) (id : String) (e : Entry) :
    (storeAssign s id e) id = some e := by simp [storeAssign]

/-- Function `_update_status` maps the entry under its own id through `stageUpdate`. -/
theorem update_status_self (s : Store) (id st p : String) :
    (update_status s id st p) id = (s id).map (fun e => stageUpdate e st p) := by
  cases h : s id <;> simp [update_status, h, storeAssign]

/-- C8: `_send_callback` issues exactly one POST request (no retry)
carrying the JSON-serialized payload with a JSON content-type header and
the configured timeout bound; the attempt is judged delivered exactly when
the HTTP response code is 200; any other code is a logged HTTP failure and
any I/O fault a logged I/O failure; being a total function into an
outcome, it never raises to its caller.  (Request fields, in order:
url, payload, content_type, timeout.) -/
theorem send_callback_contract (settings : Settings)
    (post : CallbackRequest → Except String HttpResponse)
    (url : String) (payload : CallbackPayload) :
    (send_callback settings post url payload).2 =
      [⟨url, payload, "application/json", settings.CALLBACK_TIMEOUT⟩] ∧
    ((send_callback settings post url payload).1 = .delivered ↔
      ∃ resp, post ⟨url, payload, "application/json", settings.CALLBACK_TIMEOUT⟩ =
        .ok resp ∧ resp.status = 200) ∧
    (∀ resp, post ⟨url, payload, "application/json", settings.CALLBACK_TIMEOUT⟩ =
        .ok resp → resp.status ≠ 200 →
      (send_callback settings post url payload).1 = .httpError resp.status) ∧
    (∀ m, post ⟨url, payload, "application/json", settings.CALLBACK_TIMEOUT⟩ =
        .error m →
      (send_callback settings post url payload).1 = .ioError m) := by
  unfold send_callback
  cases h : post ⟨url, payload, "application/json", settings.CALLBACK_TIMEOUT⟩ with
  | ok resp =>
    refine ⟨by simp [h], ?_, ?_, ?_⟩
    · by_cases h200 : resp.status = 200 <;> simp [h, h200]
    · intro r hr hne
      injection hr with h'
      subst h'
      simp [h, hne]
    · intro m hm
      exact Except.noConfusion hm
  | error e =>
    refine ⟨by simp [h], by simp [h], ?_, ?_⟩
    · intro r hr
      exact Except.noConfusion hr
    · intro m hm
      injection hm with h'
      subst h'
      simp [h]

/-- Witness for C8: with a transport returning HTTP 200, the delivery is
judged a success and exactly one request with the JSON content-type and the
default 30-second timeout is issued. -/
theorem send_callback_contract_witness :
    (send_callback {} (fun _ => .ok { status := 200 }) "https://cb.example/hook"
        (.success sampleResult)).2 =
      [⟨"https://cb.example/hook", .success sampleResult, "application/json", (30 : Int)⟩] ∧
    (send_callback {} (fun _ => .ok { status := 200 }) "https://cb.example/hook"
        (.success sampleResult)).1 = .delivered := by
  have h := send_callback_contract {} (fun _ => .ok { status := 200 })
    "https://cb.example/hook" (.success sampleResult)
  exact ⟨h.1, h.2.1.mpr ⟨{ status := 200 }, rfl, rfl⟩⟩

/-- C1 amended: for every job request in which NEITHER source reference is
(truthily) present, the pipeline fails with the invalid-request error
(`"No file path or URL provided"`) before any external collaborator
(Fetcher/Extractor, Analyzer, Renderer, Result Store) is invoked, and the
status entry records the failure.  (When both references are present the
pipeline is not rejected — the local file path takes precedence; see the
counterexample.) -/
theorem invalid_request_no_source (deps : Deps) (settings : Settings)
    (store : Store) (id : String) (payload : Payload) (t0 t1 : ℚ)
    (h1 : optTruthy payload.local_file_path = none)
    (h2 : optTruthy payload.file_url = none) :
    ∃ r, run_policy_analysis deps settings store id payload t0 t1 = .ok r ∧
      r.outcome = .failed "No file path or URL provided" ∧
      r.calls = [] ∧
      ∃ e, r.store id = some e ∧ e.status = "failed" ∧
        e.error = some "No file path or URL provided" ∧
        e.completed_at = some t1 := by
  unfold run_policy_analysis pipelineBody
  simp only [h1, h2]
  have hlook : (update_status (storeAssign store id (initEntry id t0)) id
      "extracting" "Extracting text from PDF...") id =
      some (stageUpdate (initEntry id t0) "extracting" "Extracting text from PDF...") := by
    rw [update_status_self, storeAssign_self]
    rfl
  unfold terminalFailedUpdate
  rw [hlook]
  cases hcb : optTruthy payload.callback_url <;>
    exact ⟨_, rfl, rfl, rfl, _, storeAssign_self _ _ _, rfl, rfl, rfl⟩

/-- Witness for the amended C1: a request with no source reference at all
fails with the invalid-request error, zero collaborator calls, and a failed
status entry. -/
theorem invalid_request_no_source_witness :
    ∃ r, run_policy_analysis sampleDeps {} emptyStore "job-1" {} 0 5 = .ok r ∧
      r.outcome = .failed "No file path or URL provided" ∧
      r.calls = [] ∧
      ∃ e, r.store "job-1" = some e ∧ e.status = "failed" ∧
        e.error = some "No file path or URL provided" ∧
        e.completed_at = some 5 :=
  invalid_request_no_source sampleDeps {} emptyStore "job-1" {} 0 5 rfl rfl

/-- C1 counterexample: a request carrying BOTH source references is a
request in which it is not the case that exactly one variant is present,
yet the pipeline does not fail with the invalid-request error — it invokes
the Fetcher/Extractor on the local path (then the Analyzer and the
Renderer) and completes. -/
theorem invalid_request_counterexample :
    (run_policy_analysis sampleDeps {} emptyStore "job-1" bothSourcesPayload 0 5).map
        RunResult.calls =
      .ok [CollabCall.extractFile "temp/upload.pdf",
           .analyze (mkAnalyzeArgs bothSourcesPayload "policy text"),
           .render (some (.obj [("raw_analysis", .str "ok")])) "reports"] ∧
    (run_policy_analysis sampleDeps {} emptyStore "job-1" bothSourcesPayload 0 5).map
        (fun r => match r.outcome with
          | .failed _ => true
          | .completed _ => false) =
      .ok false := by
  constructor <;> rfl

/-- C3: For every job whose Analyze stage call succeeds (the Claude call
returns raw text) but whose structured parsing of that raw text fails, the
job does not fail: `analyze_policy` still reports success, the analysis
data is the raw text wrapped in the degraded-result marker
`{"raw_analysis": raw}`, and the job reaches the `completed` terminal
state with a non-null result. -/
theorem parse_degraded_job_completes
    (loads : List Char → Except String JsonVal) (settings : Settings)
    (deps : Deps) (store : Store) (id : String) (payload : Payload)
    (t0 t1 : ℚ) (raw : String) (toks : Nat) (path : String)
    (hkey : ¬ settings.ANTHROPIC_API_KEY = "")
    (hana : deps.analyze_policy =
      fun args => analyze_policy loads settings (.ok (raw, toks)) args)
    (hparse : parse_analysis_json loads raw.data = none)
    (hsrc : optTruthy payload.local_file_path = some path)
    (hext : (deps.extract_from_file path).success = true) :
    ∃ r, run_policy_analysis deps settings store id payload t0 t1 = .ok r ∧
      (deps.analyze_policy
        (mkAnalyzeArgs payload (deps.extract_from_file path).text)).success = true ∧
      (∃ res, r.outcome = .completed res ∧
        res.analysis_data = some (.obj [("raw_analysis", .str raw)])) ∧
      (∃ e, r.store id = some e ∧ e.status = "completed" ∧ e.result ≠ none) := by
  have hares : deps.analyze_policy
      (mkAnalyzeArgs payload (deps.extract_from_file path).text) =
      { success := true, analysis_data := some (.obj [("raw_analysis", .str raw)]),
        raw_response := some raw, tokens_used := some toks } := by
    rw [hana]
    simp only [analyze_policy, if_neg hkey, hparse]
  have hsucc : (deps.analyze_policy
      (mkAnalyzeArgs payload (deps.extract_from_file path).text)).success = true := by
    rw [hares]
  have hdata : (deps.analyze_policy
      (mkAnalyzeArgs payload (deps.extract_from_file path).text)).analysis_data =
      some (.obj [("raw_analysis", .str raw)]) := by
    rw [hares]
  have hb : buildSummaryFields (some (.obj [("raw_analysis", .str raw)])) =
      .ok (none, none) := rfl
  have hlook3 : (update_status (update_status (update_status
      (storeAssign store id (initEntry id t0)) id
        "extracting" "Extracting text from PDF...") id
        "analyzing" "Analyzing policy with Claude...") id
        "generating" "Generating PDF report...") id =
      some (stageUpdate (stageUpdate (stageUpdate (initEntry id t0)
        "extracting" "Extracting text from PDF...")
        "analyzing" "Analyzing policy with Claude...")
        "generating" "Generating PDF report...") := by
    rw [update_status_self, update_status_self, update_status_self, storeAssign_self]
    rfl
  unfold run_policy_analysis pipelineBody afterExtraction finishRun
  simp only [hsrc, hext, hsucc, hdata, hb]
  unfold terminalCompletedUpdate
  rw [hlook3]
  cases hpid : optTruthy payload.policy_id <;>
    cases hcb : optTruthy payload.callback_url <;>
    exact ⟨_, rfl, trivial, ⟨_, rfl, rfl⟩, _, storeAssign_self _ _ _, rfl, by simp [completedUpdate]⟩

/-- Inverting a successful completed update. -/
theorem terminalCompletedUpdate_ok (s : Store) (i : String) (res : ResultSummary)
    (s' : Store) (h : terminalCompletedUpdate s i res = .ok s') :
    ∃ e, s i = some e ∧ s' = storeAssign s i (completedUpdate e res) := by
  unfold terminalCompletedUpdate at h
  split at h
  · cases h
  · injection h with h'
    exact ⟨_, by assumption, h'.symm⟩

/-- Inverting a successful failed update. -/
theorem terminalFailedUpdate_ok (s : Store) (i msg : String) (t : ℚ)
    (s' : Store) (h : terminalFailedUpdate s i msg t = .ok s') :
    ∃ e, s i = some e ∧ s' = storeAssign s i (failedUpdate e msg t) := by
  unfold terminalFailedUpdate at h
  split at h
  · cases h
  · injection h with h'
    exact ⟨_, by assumption, h'.symm⟩

/-- Function `_update_status` does not touch the `result` field. -/
theorem update_status_result_none (s : Store) (i st p : String)
    (hres : ∀ e, s i = some e → e.result = none) :
    ∀ e, (update_status s i st p) i = some e → e.result = none := by
  intro e he
  rw [update_status_self] at he
  cases h : s i with
  | none => rw [h] at he; cases he
  | some e0 =>
    rw [h] at he
    injection he with h'
    subst h'
    exact hres e0 h

/-- A raised error in the success-path tail leaves the store as it was
before the completed update. -/
theorem finishRun_error (deps : Deps) (settings : Settings) (st : Store)
    (id : String) (payload : Payload) (r : ResultSummary)
    (cl : List CollabCall) (m : String) (sF : Store) (c : List CollabCall)
    (h : finishRun deps settings st id payload r cl = .error (m, sF, c)) :
    sF = st := by
  unfold finishRun at h
  cases ht : terminalCompletedUpdate st id r with
  | error m2 =>
    rw [ht] at h
    simp only [] at h
    simp only [Except.error.injEq, Prod.mk.injEq] at h
    exact h.2.1.symm
  | ok s4 =>
    rw [ht] at h
    simp only [] at h
    exact Except.noConfusion h

/-- A successful success-path tail writes exactly the completed update
under the job id. -/
theorem finishRun_ok (deps : Deps) (settings : Settings) (st : Store)
    (id : String) (payload : Payload) (r : ResultSummary)
    (cl : List CollabCall) (s' : Store) (c : List CollabCall)
    (b : List CallbackRecord) (res : ResultSummary)
    (h : finishRun deps settings st id payload r cl = .ok (s', c, b, res)) :
    res = r ∧ ∃ e, st id = some e ∧ s' = storeAssign st id (completedUpdate e r) := by
  unfold finishRun at h
  cases ht : terminalCompletedUpdate st id r with
  | error m2 =>
    rw [ht] at h
    simp only [] at h
    exact Except.noConfusion h
  | ok s4 =>
    rw [ht] at h
    simp only [] at h
    simp only [Except.ok.injEq, Prod.mk.injEq] at h
    obtain ⟨hs, -, -, hres⟩ := h
    refine ⟨hres.symm, ?_⟩
    obtain ⟨e, hse, hs4⟩ := terminalCompletedUpdate_ok _ _ _ _ ht
    exact ⟨e, hse, by rw [← hs, hs4]⟩

/-- Every store carried by an error raised after extraction still holds a
result-free entry under the job id (only the completed update writes
`result`). -/
theorem afterExtraction_error_result_none (deps : Deps) (settings : Settings)
    (store1 : Store) (id : String) (payload : Payload) (t : ℚ)
    (ext : Extraction) (calls : List CollabCall) (msg : String) (sF : Store)
    (c : List CollabCall)
    (h : afterExtraction deps settings store1 id payload t ext calls =
      .error (msg, sF, c))
    (hres : ∀ e, store1 id = some e → e.result = none) :
    ∀ e, sF id = some e → e.result = none := by
  unfold afterExtraction at h
  by_cases hb1 : ext.success = false
  · rw [if_pos hb1] at h
    simp only [Except.error.injEq, Prod.mk.injEq] at h
    obtain ⟨-, h2, -⟩ := h
    rw [← h2]
    exact hres
  · rw [if_neg hb1] at h
    by_cases hb2 : (deps.analyze_policy (mkAnalyzeArgs payload ext.text)).success = false
    · rw [if_pos hb2] at h
      simp only [Except.error.injEq, Prod.mk.injEq] at h
      obtain ⟨-, h2, -⟩ := h
      rw [← h2]
      exact update_status_result_none _ _ _ _ hres
    · rw [if_neg hb2] at h
      simp only [] at h
      cases hb3 : buildSummaryFields
          (deps.analyze_policy (mkAnalyzeArgs payload ext.text)).analysis_data with
      | error m2 =>
        rw [hb3] at h
        simp only [] at h
        simp only [Except.error.injEq, Prod.mk.injEq] at h
        obtain ⟨-, h2, -⟩ := h
        rw [← h2]
        exact update_status_result_none _ _ _ _
          (update_status_result_none _ _ _ _ hres)
      | ok pr =>
        obtain ⟨sc, rec⟩ := pr
        rw [hb3] at h
        simp only [] at h
        have h2 := finishRun_error _ _ _ _ _ _ _ _ _ _ h
        rw [h2]
        exact update_status_result_none _ _ _ _
          (update_status_result_none _ _ _ _ hres)

/-- A successful post-extraction pipeline leaves, under the job id, exactly
the entry written by the completed update. -/
theorem afterExtraction_ok_store (deps : Deps) (settings : Settings)
    (store1 : Store) (id : String) (payload : Payload) (t : ℚ)
    (ext : Extraction) (calls : List CollabCall) (s' : Store)
    (c : List CollabCall) (b : List CallbackRecord) (res : ResultSummary)
    (h : afterExtraction deps settings store1 id payload t ext calls =
      .ok (s', c, b, res)) :
    ∃ e, s' id = some (completedUpdate e res) := by
  unfold afterExtraction at h
  by_cases hb1 : ext.success = false
  · rw [if_pos hb1] at h
    exact Except.noConfusion h
  · rw [if_neg hb1] at h
    by_cases hb2 : (deps.analyze_policy (mkAnalyzeArgs payload ext.text)).success = false
    · rw [if_pos hb2] at h
      exact Except.noConfusion h
    · rw [if_neg hb2] at h
      simp only [] at h
      cases hb3 : buildSummaryFields
          (deps.analyze_policy (mkAnalyzeArgs payload ext.text)).analysis_data with
      | error m2 =>
        rw [hb3] at h
        simp only [] at h
        exact Except.noConfusion h
      | ok pr =>
        obtain ⟨sc, rec⟩ := pr
        rw [hb3] at h
        simp only [] at h
        obtain ⟨hres2, e, hse, hs4⟩ := finishRun_ok _ _ _ _ _ _ _ _ _ _ _ h
        refine ⟨e, ?_⟩
        rw [hs4, storeAssign_self, hres2]

/-- The pipeline body never raises with a store whose entry under the job
id carries a result, provided it starts from such a store. -/
theorem pipelineBody_error_result_none (deps : Deps) (settings : Settings)
    (store0 : Store) (id : String) (payload : Payload) (t : ℚ)
    (msg : String) (sF : Store) (c : List CollabCall)
    (h : pipelineBody deps settings store0 id payload t = .error (msg, sF, c))
    (hres : ∀ e, store0 id = some e → e.result = none) :
    ∀ e, sF id = some e → e.result = none := by
  unfold pipelineBody at h
  have hres1 : ∀ e, (update_status store0 id "extracting"
      "Extracting text from PDF...") id = some e → e.result = none :=
    update_status_result_none _ _ _ _ hres
  cases hsrc : optTruthy payload.local_file_path with
  | some path =>
    rw [hsrc] at h
    simp only [] at h
    exact afterExtraction_error_result_none _ _ _ _ _ _ _ _ _ _ _ h hres1
  | none =>
    rw [hsrc] at h
    simp only [] at h
    cases hurl : optTruthy payload.file_url with
    | some url =>
      rw [hurl] at h
      simp only [] at h
      exact afterExtraction_error_result_none _ _ _ _ _ _ _ _ _ _ _ h hres1
    | none =>
      rw [hurl] at h
      simp only [] at h
      simp only [Except.error.injEq, Prod.mk.injEq] at h
      obtain ⟨-, h2, -⟩ := h
      rw [← h2]
      exact hres1

/-- A successful pipeline body leaves, under the job id, exactly the entry
written by the completed update. -/
theorem pipelineBody_ok_store (deps : Deps) (settings : Settings)
    (store0 : Store) (id : String) (payload : Payload) (t : ℚ)
    (s' : Store) (c : List CollabCall) (b : List CallbackRecord)
    (res : ResultSummary)
    (h : pipelineBody deps settings store0 id payload t = .ok (s', c, b, res)) :
    ∃ e, s' id = some (completedUpdate e res) := by
  unfold pipelineBody at h
  cases hsrc : optTruthy payload.local_file_path with
  | some path =>
    rw [hsrc] at h
    simp only [] at h
    exact afterExtraction_ok_store _ _ _ _ _ _ _ _ _ _ _ _ h
  | none =>
    rw [hsrc] at h
    simp only [] at h
    cases hurl : optTruthy payload.file_url with
    | some url =>
      rw [hurl] at h
      simp only [] at h
      exact afterExtraction_ok_store _ _ _ _ _ _ _ _ _ _ _ _ h
    | none =>
      rw [hurl] at h
      simp only [] at h
      exact Except.noConfusion h

/-- The creation entry satisfies the invariant. -/
theorem entryInv_init (id : String) (t : ℚ) : EntryInv (initEntry id t) := by
  constructor <;> simp [initEntry]

/-- Intermediate stage updates preserve the invariant on non-terminal
entries. -/
theorem entryInv_stage (e : Entry) (st p : String)
    (hst : st = "extracting" ∨ st = "analyzing" ∨ st = "generating")
    (hInv : EntryInv e)
    (hterm : ¬(e.status = "completed" ∨ e.status = "failed")) :
    EntryInv (stageUpdate e st p) := by
  have hca : e.completed_at = none := by
    by_contra hc
    exact hterm (hInv.1.mp hc)
  have hre : e.result = none := by
    by_contra hr
    exact hterm (Or.inl (hInv.2.mp hr))
  obtain hst | hst | hst := hst <;> subst hst <;>
    exact ⟨by simp [stageUpdate, hca], by simp [stageUpdate, hre]⟩

/-- The completed update establishes the invariant outright. -/
theorem entryInv_completed (e : Entry) (res : ResultSummary) :
    EntryInv (completedUpdate e res) := by
  exact ⟨by simp [completedUpdate], by simp [completedUpdate]⟩

/-- The failed update establishes the invariant on result-free entries. -/
theorem entryInv_failed (e : Entry) (msg : String) (t : ℚ)
    (hres : e.result = none) :
    EntryInv (failedUpdate e msg t) := by
  exact ⟨by simp [failedUpdate], by simp [failedUpdate, hres]⟩

/-- Every terminal store produced by a full run satisfies the invariant at
the orchestrated job id. -/
theorem run_entry_inv (deps : Deps) (settings : Settings) (store : Store)
    (id : String) (payload : Payload) (t0 t1 : ℚ) (r : RunResult)
    (hrun : run_policy_analysis deps settings store id payload t0 t1 = .ok r) :
    ∀ e, r.store id = some e → EntryInv e := by
  intro e he
  unfold run_policy_analysis at hrun
  simp only [] at hrun
  cases hp : pipelineBody deps settings
      (storeAssign store id (initEntry id t0)) id payload t1 with
  | ok out =>
    obtain ⟨s', c, b, res⟩ := out
    rw [hp] at hrun
    simp only [] at hrun
    injection hrun with h'
    subst h'
    simp only [] at he
    obtain ⟨e3, hs⟩ := pipelineBody_ok_store _ _ _ _ _ _ _ _ _ _ hp
    rw [hs] at he
    injection he with h''
    rw [← h'']
    exact entryInv_completed e3 res
  | error err =>
    obtain ⟨msg, sF, calls⟩ := err
    rw [hp] at hrun
    simp only [] at hrun
    cases ht : terminalFailedUpdate sF id msg t1 with
    | error ke =>
      rw [ht] at hrun
      simp only [] at hrun
      exact Except.noConfusion hrun
    | ok store' =>
      rw [ht] at hrun
      simp only [] at hrun
      injection hrun with h'
      subst h'
      simp only [] at he
      obtain ⟨eF, hsF, hassign⟩ := terminalFailedUpdate_ok _ _ _ _ _ ht
      rw [hassign, storeAssign_self] at he
      injection he with h''
      rw [← h'']
      refine entryInv_failed eF msg t1 ?_
      have hres0 : ∀ e', (storeAssign store id (initEntry id t0)) id = some e' →
          e'.result = none := by
        intro e' he'
        rw [storeAssign_self] at he'
        injection he' with h3
        rw [← h3]
        rfl
      exact pipelineBody_error_result_none _ _ _ _ _ _ _ _ _ hp hres0 eF hsF

/-- C4: the status-store invariant — `completed_at` is set iff the status
is terminal and `result` is non-null iff the status is `completed` — holds
for the creation entry, is preserved by every intermediate stage update on
a non-terminal entry, is (re-)established by the completed update and by
the failed update on a result-free entry, and holds for the entry under
the job id after every full orchestrator run. -/
theorem status_store_invariant :
    (∀ id t, EntryInv (initEntry id t)) ∧
    (∀ e st p, (st = "extracting" ∨ st = "analyzing" ∨ st = "generating") →
      EntryInv e → ¬(e.status = "completed" ∨ e.status = "failed") →
      EntryInv (stageUpdate e st p)) ∧
    (∀ e res, EntryInv (completedUpdate e res)) ∧
    (∀ e msg t, e.result = none → EntryInv (failedUpdate e msg t)) ∧
    (∀ deps settings store id payload t0 t1 r,
      run_policy_analysis deps settings store id payload t0 t1 = .ok r →
      ∀ e, r.store id = some e → EntryInv e) :=
  ⟨entryInv_init, entryInv_stage, entryInv_completed, entryInv_failed,
   run_entry_inv⟩

/-- Witness for C4: the invariant evaluated on concrete entries along the
lifecycle of one job. -/
theorem status_store_invariant_witness :
    EntryInv (initEntry "job-1" 0) ∧
    EntryInv (stageUpdate (initEntry "job-1" 0) "extracting"
      "Extracting text from PDF...") ∧
    EntryInv (completedUpdate (initEntry "job-1" 0) sampleResult) ∧
    EntryInv (failedUpdate (initEntry "job-1" 0) "boom" 5) :=
  ⟨status_store_invariant.1 "job-1" 0,
   status_store_invariant.2.1 (initEntry "job-1" 0) "extracting"
     "Extracting text from PDF..." (Or.inl rfl)
     (status_store_invariant.1 "job-1" 0) (by simp [initEntry]),
   status_store_invariant.2.2.1 (initEntry "job-1" 0) sampleResult,
   status_store_invariant.2.2.2.1 (initEntry "job-1" 0) "boom" 5 rfl⟩

/-- C7: For every job whose stages up to and including Analyze succeed
(and whose summary fields are readable) but whose Render stage fails, the
job still reaches the `completed` terminal state with a non-null
structured result whose report reference is null — render failure is
non-fatal and does not alter the terminal status. -/
theorem render_failure_nonfatal
    (deps : Deps) (settings : Settings) (store : Store) (id : String)
    (payload : Payload) (t0 t1 : ℚ) (path : String)
    (score rec : Option JsonVal)
    (hsrc : optTruthy payload.local_file_path = some path)
    (hext : (deps.extract_from_file path).success = true)
    (hana : (deps.analyze_policy
      (mkAnalyzeArgs payload (deps.extract_from_file path).text)).success = true)
    (hfields : buildSummaryFields (deps.analyze_policy
      (mkAnalyzeArgs payload (deps.extract_from_file path).text)).analysis_data =
      .ok (score, rec))
    (hrender : (deps.generate_report (deps.analyze_policy
      (mkAnalyzeArgs payload (deps.extract_from_file path).text)).analysis_data
      settings.REPORTS_DIR).success = false) :
    ∃ r, run_policy_analysis deps settings store id payload t0 t1 = .ok r ∧
      ∃ res, r.outcome = .completed res ∧ res.report_path = none ∧
        ∃ e, r.store id = some e ∧ e.status = "completed" ∧
          e.result = some res := by
  have hlook3 : (update_status (update_status (update_status
      (storeAssign store id (initEntry id t0)) id
        "extracting" "Extracting text from PDF...") id
        "analyzing" "Analyzing policy with Claude...") id
        "generating" "Generating PDF report...") id =
      some (stageUpdate (stageUpdate (stageUpdate (initEntry id t0)
        "extracting" "Extracting text from PDF...")
        "analyzing" "Analyzing policy with Claude...")
        "generating" "Generating PDF report...") := by
    rw [update_status_self, update_status_self, update_status_self, storeAssign_self]
    rfl
  unfold run_policy_analysis pipelineBody afterExtraction finishRun
  simp only [hsrc, hext, hana, hfields, hrender]
  unfold terminalCompletedUpdate
  rw [hlook3]
  cases hpid : optTruthy payload.policy_id <;>
    cases hcb : optTruthy payload.callback_url <;>
    exact ⟨_, rfl, _, rfl, rfl, _, storeAssign_self _ _ _, rfl, rfl⟩

/-- Witness for C3: a run over raw analyzer text that no parse strategy
can decode still completes, carrying `{"raw_analysis": raw}`. -/
theorem parse_degraded_job_completes_witness :
    ∃ r, run_policy_analysis degradedDeps keyedSettings emptyStore "job-1"
        { local_file_path := some "temp/upload.pdf" } 0 5 = .ok r ∧
      (degradedDeps.analyze_policy (mkAnalyzeArgs
        { local_file_path := some "temp/upload.pdf" }
        (degradedDeps.extract_from_file "temp/upload.pdf").text)).success = true ∧
      (∃ res, r.outcome = .completed res ∧
        res.analysis_data = some (.obj [("raw_analysis", .str "unparseable prose")])) ∧
      (∃ e, r.store "job-1" = some e ∧ e.status = "completed" ∧ e.result ≠ none) :=
  parse_degraded_job_completes alwaysFailLoads keyedSettings degradedDeps emptyStore
    "job-1" { local_file_path := some "temp/upload.pdf" } 0 5 "unparseable prose" 10
    "temp/upload.pdf" (by decide) rfl rfl rfl rfl

/-- Witness for C7: a concrete run with a failing renderer completes with
a populated structured result and a null report reference. -/
theorem render_failure_nonfatal_witness :
    ∃ r, run_policy_analysis renderFailDeps {} emptyStore "job-1"
        { local_file_path := some "temp/upload.pdf" } 0 5 = .ok r ∧
      ∃ res, r.outcome = .completed res ∧ res.report_path = none ∧
        ∃ e, r.store "job-1" = some e ∧ e.status = "completed" ∧
          e.result = some res :=
  render_failure_nonfatal renderFailDeps {} emptyStore "job-1"
    { local_file_path := some "temp/upload.pdf" } 0 5 "temp/upload.pdf"
    none none rfl rfl rfl rfl rfl
